import Mathlib

/-!
Verification of the RedisGraph example adapters for a graph-learning
feature store: the index-to-predicate translator in
examples/redisgraph/rg_pyg/torch_geometric_feature_store.py and the
incremental attribute-binding view in
examples/redisgraph/rg_pyg/torch_geometric_tensorattr.py, shallowly
embedded as pure Lean functions.
-/

namespace RGPyg

/-- Python runtime values that can appear in a TensorAttr field or as an
index: None, a string, an int, a slice (start, stop, optional step), an
integer collection (list / tuple / numpy array / torch tensor of ints),
or a value of any other type, carried with the rendering of its Python
type name. -/
inductive PyVal where
  | none
  | str (s : String)
  | int (i : Int)
  | slice (start stop : Int) (step : Option Int)
  | coll (l : List Int)
  | other (tyName : String)
  deriving DecidableEq

/-- Python exceptions raised by the embedded code. attributeError carries
the offending key (the source message also interpolates the repr of the
view, which involves the external store and is not modelled). -/
inductive PyErr where
  | valueError (msg : String)
  | attributeError (key : PyVal)
  | nameError (nm : String)
  | notImplementedError
  deriving DecidableEq

/-- Python string slicing s[:-n]: drop the last n characters, empty when
the string has at most n characters. -/
def strDropRight (s : String) (n : Nat) : String :=
  ⟨s.data.take (s.data.length - n)⟩

/-- The accumulation loop of the explicit-collection branch as written
(torch_geometric_feature_store.py lines 91-93): starting from the
accumulator, append one disjunct per collection member. In the source
these lines are dead code: the guard on line 90 raises NameError before
the loop can run (see whereClauseOfIndex); the loop is embedded here so
that the trimming expression of line 94 can be analysed as written. -/
def collLoop : List Int → String → String
  | [], acc => acc
  | i :: rest, acc =>
      collLoop rest (acc ++ (" offset(id(item)) = " ++ toString i ++ " OR"))

/-- Embedding of the where-clause construction of __get_tensor_by_query
(torch_geometric_feature_store.py lines 79-96), dispatching on the type
of attr.index as the isinstance chain of the source does. The module
imports neither torch nor numpy, so the names Tensor and np on line 90
are unbound: for every index that is not None, an int or a slice,
evaluating isinstance(indices, Tensor) raises NameError("Tensor") before
the or-chain can short-circuit, and both the collection loop
(lines 91-94) and the ValueError else-branch (lines 95-96) are dead. -/
def whereClauseOfIndex : PyVal → Except PyErr String
  | PyVal.none => Except.ok ""
  | PyVal.int i => Except.ok ("WHERE offset(id(item)) = " ++ toString i)
  | PyVal.slice start stop step =>
      match step with
      | Option.none =>
          Except.ok ("WHERE offset(id(item)) >= " ++ toString start ++
            " AND offset(id(item)) < " ++ toString stop)
      | Option.some k =>
          if k = 1 then
            Except.ok ("WHERE offset(id(item)) >= " ++ toString start ++
              " AND offset(id(item)) < " ++ toString stop)
          else
            Except.ok ("WHERE offset(id(item)) >= " ++ toString start ++
              " AND offset(id(item)) < " ++ toString stop ++
              " AND (offset(id(item)) - " ++ toString start ++ ") % " ++
              toString k ++ " = 0")
  | PyVal.coll _ => Except.error (PyErr.nameError "Tensor")
  | PyVal.str _ => Except.error (PyErr.nameError "Tensor")
  | PyVal.other _ => Except.error (PyErr.nameError "Tensor")

/-- Embedding of the query assembly of __get_tensor_by_query
(torch_geometric_feature_store.py lines 76-98): the query is the format
string applied to the match, where and return clauses. -/
def getTensorByQueryString (group_name attr_name : String) (index : PyVal) :
    Except PyErr String :=
  match whereClauseOfIndex index with
  | Except.error e => Except.error e
  | Except.ok w =>
      Except.ok (("MATCH (item:" ++ group_name ++ ")") ++ " " ++ w ++ " " ++
        ("RETURN item." ++ attr_name))

/-- Embedding of the per-row unwrapping of __get_tensor_by_query
(lines 103-105): a row with exactly one column is replaced by its single
value before being appended to the result list. -/
def unwrapRow {V : Type} (r : List V) : V ⊕ List V :=
  match r with
  | [v] => Sum.inl v
  | _ => Sum.inr r

/-- The result-collection loop of __get_tensor_by_query (lines 101-106):
iterate over the rows of the result set, appending each (possibly
unwrapped) row to the accumulator. -/
def collectRows {V : Type} : List (List V) → List (V ⊕ List V) → List (V ⊕ List V)
  | [], acc => acc
  | r :: rest, acc => collectRows rest (acc ++ [unwrapRow r])

/-- Embedding of the final try/except of __get_tensor_by_query
(lines 107-111): torch.tensor is modelled by the conversion oracle conv,
returning Option.none when the conversion raises; on failure the plain
result list is returned instead. -/
def torchTensorResult {V T : Type} (conv : List (V ⊕ List V) → Option T)
    (rows : List (List V)) : T ⊕ List (V ⊕ List V) :=
  match conv (collectRows rows []) with
  | Option.some t => Sum.inl t
  | Option.none => Sum.inr (collectRows rows [])

/-- Embedding of the whole of __get_tensor_by_query (lines 69-111):
build the query, send it to the connection (modelled by the execute
oracle, giving the decoded rows), then collect and convert the result.
The second component lists the queries issued to the connection. -/
def getTensorByQueryRun {V T : Type} (conv : List (V ⊕ List V) → Option T)
    (execute : String → List (List V)) (group_name attr_name : String)
    (index : PyVal) : Except PyErr (T ⊕ List (V ⊕ List V)) × List String :=
  match getTensorByQueryString group_name attr_name index with
  | Except.error e => (Except.error e, [])
  | Except.ok q => (Except.ok (torchTensorResult conv (execute q)), [q])

/-- Embedding of __get_node_property
(torch_geometric_feature_store.py lines 123-134). The parameter of the
source function is graph_name, but the first statement of its body
(line 124) reads table_name, a name bound neither in the function nor at
module level, so Python raises NameError on every call before the cache
or the connection is touched; the rest of the body is dead. -/
def getNodeProperty (_graph_name _attr_name : String) : Except PyErr String :=
  Except.error (PyErr.nameError "table_name")

/-- Embedding of _get_tensor (torch_geometric_feature_store.py
lines 14-21): look up the attribute metadata via __get_node_property,
then fetch via __get_tensor_by_query. The second component lists the
queries issued to the connection. -/
def getTensor {V T : Type} (conv : List (V ⊕ List V) → Option T)
    (execute : String → List (List V)) (group_name attr_name : String)
    (index : PyVal) : Except PyErr (T ⊕ List (V ⊕ List V)) × List String :=
  match getNodeProperty group_name attr_name with
  | Except.error e => (Except.error e, [])
  | Except.ok _ => getTensorByQueryRun conv execute group_name attr_name index

/-- A deep embedding of the fragment of the query filter language that the
predicate builder emits (or, for the dead collection branch, would emit
as written), with one atom per clause shape. -/
inductive Filt where
  | eqF (i : Int)
  | geF (i : Int)
  | ltF (i : Int)
  | modF (s k : Int)
  | andF (p q : Filt)
  | orF (p q : Filt)
  deriving DecidableEq

/-- Rendering of a filter to the concrete syntax of the emitted query,
with the item identifier written offset(id(item)) as in the source. -/
def Filt.render : Filt → String
  | Filt.eqF i => "offset(id(item)) = " ++ toString i
  | Filt.geF i => "offset(id(item)) >= " ++ toString i
  | Filt.ltF i => "offset(id(item)) < " ++ toString i
  | Filt.modF s k =>
      "(offset(id(item)) - " ++ toString s ++ ") % " ++ toString k ++ " = 0"
  | Filt.andF p q => p.render ++ " AND " ++ q.render
  | Filt.orF p q => p.render ++ " OR " ++ q.render

/-- Truth value of a filter at an item whose identifier is x. -/
def Filt.holds (x : Int) : Filt → Bool
  | Filt.eqF i => x = i
  | Filt.geF i => i ≤ x
  | Filt.ltF i => x < i
  | Filt.modF s k => (x - s) % k = 0
  | Filt.andF p q => p.holds x && q.holds x
  | Filt.orF p q => p.holds x || q.holds x

/-- The disjunction of identifier-equality atoms over a nonempty list of
members, associated to the right. -/
def collFilt : Int → List Int → Filt
  | i, [] => Filt.eqF i
  | i, j :: rest => Filt.orF (Filt.eqF i) (collFilt j rest)

/-- State of one field of the attribute record: unset, or bound to a
value (Python None is the value PyVal.none, so explicitly-null counts as
bound). -/
inductive FField where
  | unset
  | val (v : PyVal)
  deriving DecidableEq

/-- Embedding of RedisGraphTensorAttr
(torch_geometric_tensorattr.py lines 43-90): the three declared fields
in dataclass order group_name, attr_name, index. -/
structure RGTensorAttr where
  group_name : FField
  attr_name : FField
  index : FField
  deriving DecidableEq

/-- Embedding of TensorAttr.is_set for one field
(torch_geometric_tensorattr.py lines 65-68). -/
def FField.is_set : FField → Bool
  | FField.unset => false
  | FField.val _ => true

/-- Embedding of TensorAttr.is_fully_specified (lines 71-73): no field
remains unset. -/
def RGTensorAttr.is_fully_specified (a : RGTensorAttr) : Bool :=
  a.group_name.is_set && a.attr_name.is_set && a.index.is_set

/-- Embedding of TensorAttr.fully_specify (lines 76-81): every unset
field is set to None. -/
def RGTensorAttr.fully_specify (a : RGTensorAttr) : RGTensorAttr :=
  let fill : FField → FField
    | FField.unset => FField.val PyVal.none
    | f => f
  ⟨fill a.group_name, fill a.attr_name, fill a.index⟩

/-- Python setattr on the record by field name; the callers below only
pass declared field names. -/
def RGTensorAttr.setattr (a : RGTensorAttr) (key : String) (v : PyVal) :
    RGTensorAttr :=
  if key = "group_name" then { a with group_name := FField.val v }
  else if key = "attr_name" then { a with attr_name := FField.val v }
  else if key = "index" then { a with index := FField.val v }
  else a

/-- The first-unset-field scan of AttrView.__getattr__
(torch_geometric_tensorattr.py lines 141-146), walking the declared
fields in dataclass order. -/
def RGTensorAttr.firstUnset (a : RGTensorAttr) : Option String :=
  if a.group_name = FField.unset then Option.some "group_name"
  else if a.attr_name = FField.unset then Option.some "attr_name"
  else if a.index = FField.unset then Option.some "index"
  else Option.none

/-- Embedding of AttrView (torch_geometric_tensorattr.py lines 94-246):
the view holds its private copy of the attribute record; the backing
store is external and is modelled by the dispatch function passed to the
operations that call store.get_tensor. -/
structure AttrView where
  _attr : RGTensorAttr
  deriving DecidableEq

/-- Embedding of AttrView.__getattr__ (lines 125-158), which
AttrView.__getitem__ (lines 160-174) delegates to: copy the view, bind
the first unset field of the record to the key, raise AttributeError if
no field is unset, and dispatch store.get_tensor (the gt argument) once
the record is fully specified. -/
def AttrView.getOrSet {T : Type} (gt : RGTensorAttr → T) (view : AttrView)
    (key : PyVal) : Except PyErr (AttrView ⊕ T) :=
  match view._attr.firstUnset with
  | Option.none => Except.error (PyErr.attributeError key)
  | Option.some f =>
      let out : AttrView := ⟨view._attr.setattr f key⟩
      if out._attr.is_fully_specified then Except.ok (Sum.inr (gt out._attr))
      else Except.ok (Sum.inl out)

/-- Embedding of AttrView.__setattr__ (lines 178-194), which
AttrView.__setitem__ (lines 196-207) delegates to: reject a key that is
not a declared field with ValueError, otherwise set it on the record
(regardless of its current state). -/
def AttrView.setAttr (view : AttrView) (key : String) (v : PyVal) :
    Except PyErr AttrView :=
  if key = "group_name" ∨ key = "attr_name" ∨ key = "index" then
    Except.ok ⟨view._attr.setattr key v⟩
  else
    Except.error (PyErr.valueError
      ("Attempted to set nonexistent attribute " ++ key))

/-- Embedding of AttrView.__call__ (lines 211-226): copy the view, set
all unset fields to None, and dispatch store.get_tensor on the result. -/
def AttrView.call {T : Type} (gt : RGTensorAttr → T) (view : AttrView) : T :=
  gt view._attr.fully_specify

theorem strData_append (s t : String) : (s ++ t).data = s.data ++ t.data := rfl

theorem strExt {s t : String} (h : s.data = t.data) : s = t := by
  cases s; cases t; exact congrArg String.mk h

theorem str_assoc (a b c : String) : a ++ b ++ c = a ++ (b ++ c) := by
  refine strExt ?_
  simp [strData_append]

theorem str_append_emp (s : String) : s ++ "" = s := by
  refine strExt ?_
  simp [strData_append]

theorem strDropRight_or (X : String) : strDropRight (X ++ " OR") 3 = X := by
  refine strExt ?_
  show ((X ++ " OR").data).take ((X ++ " OR").data.length - 3) = X.data
  rw [strData_append]
  rw [show (" OR" : String).data = [' ', 'O', 'R'] from rfl]
  rw [show (X.data ++ [' ', 'O', 'R']).length - 3 = X.data.length by simp]
  exact List.take_left X.data _

theorem collLoop_shift (l : List Int) (a b : String) :
    collLoop l (a ++ b) = a ++ collLoop l b := by
  induction l generalizing b with
  | nil => rfl
  | cons i rest ih =>
      simp only [collLoop]
      rw [str_assoc, ih]

theorem collLoop_tail (i : Int) (rest : List Int) :
    collLoop (i :: rest) "" = " " ++ (collFilt i rest).render ++ " OR" := by
  induction rest generalizing i with
  | nil => rfl
  | cons j rest2 ih =>
      have step : collLoop (i :: j :: rest2) "" =
          (" offset(id(item)) = " ++ toString i ++ " OR") ++
            collLoop (j :: rest2) "" := by
        show collLoop (j :: rest2) ("" ++ (" offset(id(item)) = " ++ toString i ++ " OR")) = _
        rw [show ("" : String) ++ (" offset(id(item)) = " ++ toString i ++ " OR") =
              (" offset(id(item)) = " ++ toString i ++ " OR") ++ "" by
            rw [str_append_emp]; rfl]
        exact collLoop_shift _ _ _
      rw [step, ih j]
      simp only [collFilt, Filt.render, str_assoc]
      rfl

theorem collTrim_nonempty (i : Int) (rest : List Int) :
    strDropRight (collLoop (i :: rest) "WHERE") 3 =
      "WHERE " ++ (collFilt i rest).render := by
  rw [show collLoop (i :: rest) "WHERE" = "WHERE" ++ collLoop (i :: rest) "" by
      rw [show ("WHERE" : String) = "WHERE" ++ "" by rw [str_append_emp]]
      rw [collLoop_shift]
      rw [str_append_emp]]
  rw [collLoop_tail]
  rw [show ("WHERE" : String) ++ (" " ++ (collFilt i rest).render ++ " OR") =
        ("WHERE " ++ (collFilt i rest).render) ++ " OR" by
      simp only [str_assoc]; rfl]
  rw [strDropRight_or]

theorem collectRows_shift {V : Type} (l : List (List V))
    (acc : List (V ⊕ List V)) :
    collectRows l acc = acc ++ l.map unwrapRow := by
  induction l generalizing acc with
  | nil => simp [collectRows]
  | cons r rest ih =>
      simp only [collectRows, List.map]
      rw [ih]
      simp

/-- C1: the claim states that the code path of __get_node_property that
references an undefined variable is unreachable, so that no call to
_get_tensor fails with an undefined-variable error before a query is
issued. This theorem shows the opposite on the code: every call to
_get_tensor, for every attribute record, stops with
NameError("table_name") raised by the first statement of
__get_node_property, and the list of queries issued to the connection is
empty. -/
theorem getTensor_nameError_before_query {V T : Type}
    (conv : List (V ⊕ List V) → Option T) (execute : String → List (List V))
    (group_name attr_name : String) (index : PyVal) :
    getTensor conv execute group_name attr_name index =
      (Except.error (PyErr.nameError "table_name"), ([] : List String)) := rfl

/-- C2: for a range index with stride 1 or unspecified stride the builder
produces the filter "offset(id(item)) >= start AND offset(id(item)) <
stop", whose truth value at identifier x is the half-open interval test
start ≤ x < stop; for a strided range with step k ≠ 1 it additionally
conjoins "(offset(id(item)) - start) % k = 0". -/
theorem range_filter_correct (s e x : Int) :
    whereClauseOfIndex (PyVal.slice s e Option.none) =
      Except.ok ("WHERE " ++ (Filt.andF (Filt.geF s) (Filt.ltF e)).render) ∧
    whereClauseOfIndex (PyVal.slice s e (Option.some 1)) =
      Except.ok ("WHERE " ++ (Filt.andF (Filt.geF s) (Filt.ltF e)).render) ∧
    ((Filt.andF (Filt.geF s) (Filt.ltF e)).holds x = true ↔ s ≤ x ∧ x < e) ∧
    (∀ k : Int, k ≠ 1 →
      whereClauseOfIndex (PyVal.slice s e (Option.some k)) =
        Except.ok ("WHERE " ++
          (Filt.andF (Filt.andF (Filt.geF s) (Filt.ltF e))
            (Filt.modF s k)).render) ∧
      ((Filt.andF (Filt.andF (Filt.geF s) (Filt.ltF e))
          (Filt.modF s k)).holds x = true ↔
        (s ≤ x ∧ x < e) ∧ (x - s) % k = 0)) := by
  have hsimple : ("WHERE offset(id(item)) >= " ++ toString s ++
      " AND offset(id(item)) < " ++ toString e) =
      "WHERE " ++ (Filt.andF (Filt.geF s) (Filt.ltF e)).render := by
    simp only [Filt.render, str_assoc]; rfl
  refine ⟨?_, ?_, ?_, ?_⟩
  · exact congrArg Except.ok hsimple
  · exact congrArg Except.ok hsimple
  · simp [Filt.holds]
  · intro k hk
    constructor
    · show (if k = 1 then _ else _) = _
      rw [if_neg hk]
      exact congrArg Except.ok (by simp only [Filt.render, str_assoc]; rfl)
    · simp [Filt.holds, and_assoc]

/-- C2 witness: instantiation at the strided range slice(0, 10, 2). -/
theorem range_filter_correct_witness :
    whereClauseOfIndex (PyVal.slice 0 10 (Option.some 2)) =
      Except.ok
        "WHERE offset(id(item)) >= 0 AND offset(id(item)) < 10 AND (offset(id(item)) - 0) % 2 = 0" ∧
    (Filt.andF (Filt.andF (Filt.geF 0) (Filt.ltF 10))
        (Filt.modF 0 2)).holds 4 = true :=
  ⟨((range_filter_correct 0 10 4).2.2.2 2 (by decide)).1.trans
      (congrArg Except.ok (by decide)),
    (((range_filter_correct 0 10 4).2.2.2 2 (by decide)).2).mpr (by decide)⟩

/-- C3: the claim states that for every explicit non-empty collection
the filter holds iff the identifier equals one of the members. On the
code this behavior is unreachable: the module binds neither Tensor nor
np, so for every collection index the isinstance chain on line 90
raises NameError("Tensor") and no disjunction filter is ever built —
the builder fails before producing anything. -/
theorem coll_index_nameError (l : List Int) :
    whereClauseOfIndex (PyVal.coll l) =
      Except.error (PyErr.nameError "Tensor") := rfl

/-- C4, counterexample to the claim: on the single-element collection
[5] no mis-trimmed filter is produced at all — the builder raises
NameError("Tensor") on line 90 before the loop runs — and the trimming
expression of line 94, applied to the loop output as written, removes
exactly the trailing " OR" and yields the clean single equality clause,
contrary to the claimed off-by-one mis-trim. -/
theorem single_coll_nameError_counterexample :
    whereClauseOfIndex (PyVal.coll [5]) =
      Except.error (PyErr.nameError "Tensor") ∧
    strDropRight (collLoop [5] "WHERE") 3 = "WHERE offset(id(item)) = 5" :=
  ⟨rfl, rfl⟩

/-- C4, amended: for a single-element collection the source produces no
filter at all, because line 90 raises NameError("Tensor") before the
collection branch runs; and the trailing-token trimming of line 94, as
written, has no off-by-one: it removes exactly the three characters
" OR", so it would yield the clean clause "WHERE offset(id(item)) = i"
for [i], and only the empty collection would be mis-trimmed, truncating
"WHERE" to "WH". -/
theorem coll_trim_exact (i : Int) :
    whereClauseOfIndex (PyVal.coll [i]) =
      Except.error (PyErr.nameError "Tensor") ∧
    strDropRight (collLoop [i] "WHERE") 3 =
      "WHERE " ++ (Filt.eqF i).render ∧
    strDropRight (collLoop [] "WHERE") 3 = "WH" :=
  ⟨rfl, collTrim_nonempty i [], rfl⟩

/-- C5: a single integer index i (the claim restricts to 0 ≤ i) produces
the filter "WHERE offset(id(item)) = i", whose truth value at identifier
x is x = i. -/
theorem single_int_filter (i x : Int) (_h : 0 ≤ i) :
    whereClauseOfIndex (PyVal.int i) =
      Except.ok ("WHERE " ++ (Filt.eqF i).render) ∧
    ((Filt.eqF i).holds x = true ↔ x = i) := by
  constructor
  · simp only [Filt.render, str_assoc]; rfl
  · simp [Filt.holds]

/-- C5 witness: index 5 yields the filter "WHERE offset(id(item)) = 5". -/
theorem single_int_filter_witness :
    (0 : Int) ≤ 5 ∧
    whereClauseOfIndex (PyVal.int 5) =
      Except.ok "WHERE offset(id(item)) = 5" :=
  ⟨by decide,
    (single_int_filter 5 5 (by decide)).1.trans
      (congrArg Except.ok (by decide))⟩

/-- C6, counterexample to the claim: with a null index the query is NOT
the match and return clauses with the filter clause omitted entirely:
the empty filter is still interpolated between its two separator
spaces, leaving two consecutive spaces in the query. -/
theorem null_index_double_space_counterexample :
    getTensorByQueryString "Person" "x" PyVal.none =
      Except.ok "MATCH (item:Person)  RETURN item.x" ∧
    ("MATCH (item:Person)  RETURN item.x" : String) ≠
      "MATCH (item:Person) RETURN item.x" :=
  ⟨rfl, by decide⟩

/-- C6, amended: when the index is null no filter is applied (the
where-clause is empty, all items match), and the query is always
formatted as match ++ " " ++ filter ++ " " ++ return, so the empty
filter leaves two consecutive spaces between the match and return
clauses instead of being dropped together with a separator. -/
theorem null_index_no_filter (g a : String) :
    whereClauseOfIndex PyVal.none = Except.ok "" ∧
    getTensorByQueryString g a PyVal.none =
      Except.ok (("MATCH (item:" ++ g ++ ")") ++ "  " ++
        ("RETURN item." ++ a)) := by
  refine ⟨rfl, ?_⟩
  show Except.ok _ = _
  simp only [str_assoc]
  rfl

/-- C7: the claim states that an index of an unsupported type makes the
builder fail with InvalidArgument naming that type. On the code the
ValueError of lines 95-96 is dead: for every index that is not None, an
int or a slice, line 90 evaluates the unbound name Tensor first and
raises NameError("Tensor"), an error naming Tensor rather than the type
of the index. -/
theorem other_index_nameError (s tyName : String) :
    whereClauseOfIndex (PyVal.str s) =
      Except.error (PyErr.nameError "Tensor") ∧
    whereClauseOfIndex (PyVal.other tyName) =
      Except.error (PyErr.nameError "Tensor") :=
  ⟨rfl, rfl⟩

/-- C8: calling the chained binding operation (AttrView.__getattr__, to
which __getitem__ delegates) on a view whose attribute record is already
fully specified raises AttributeError — the error the spec calls
InvalidState — without binding a field or dispatching a lookup. -/
theorem getOrSet_fully_specified_raises {T : Type} (gt : RGTensorAttr → T)
    (view : AttrView) (key : PyVal)
    (h : view._attr.is_fully_specified = true) :
    AttrView.getOrSet gt view key =
      Except.error (PyErr.attributeError key) := by
  obtain ⟨⟨gf, af, idxf⟩⟩ := view
  cases gf <;> cases af <;> cases idxf <;>
    simp_all [RGTensorAttr.is_fully_specified, FField.is_set,
      AttrView.getOrSet, RGTensorAttr.firstUnset]

/-- C8 witness: a fully specified view. -/
theorem getOrSet_fully_specified_raises_witness :
    (RGTensorAttr.mk (FField.val (PyVal.str "Person"))
        (FField.val (PyVal.str "x"))
        (FField.val PyVal.none)).is_fully_specified = true ∧
    AttrView.getOrSet (fun _ => (0 : Nat))
        ⟨⟨FField.val (PyVal.str "Person"), FField.val (PyVal.str "x"),
          FField.val PyVal.none⟩⟩ (PyVal.int 0) =
      Except.error (PyErr.attributeError (PyVal.int 0)) :=
  ⟨by decide, getOrSet_fully_specified_raises _ _ _ (by decide)⟩

/-- C9: for any store dispatch gt and any field values g, a, i, binding
every field of a fresh view in declared order via the chained binding
operation ends in the dispatch gt {group_name := g, attr_name := a,
index := i}, and setting the same fields through the explicit setter
and then force-materializing with __call__ dispatches gt on the same
record, so the two routes yield the same result. -/
theorem getOrSet_roundtrip_resolve {T : Type} (gt : RGTensorAttr → T)
    (g a i : PyVal) :
    AttrView.getOrSet gt ⟨⟨FField.unset, FField.unset, FField.unset⟩⟩ g =
      Except.ok (Sum.inl ⟨⟨FField.val g, FField.unset, FField.unset⟩⟩) ∧
    AttrView.getOrSet gt ⟨⟨FField.val g, FField.unset, FField.unset⟩⟩ a =
      Except.ok (Sum.inl ⟨⟨FField.val g, FField.val a, FField.unset⟩⟩) ∧
    AttrView.getOrSet gt ⟨⟨FField.val g, FField.val a, FField.unset⟩⟩ i =
      Except.ok (Sum.inr (gt ⟨FField.val g, FField.val a, FField.val i⟩)) ∧
    AttrView.setAttr ⟨⟨FField.unset, FField.unset, FField.unset⟩⟩
        "group_name" g =
      Except.ok ⟨⟨FField.val g, FField.unset, FField.unset⟩⟩ ∧
    AttrView.setAttr ⟨⟨FField.val g, FField.unset, FField.unset⟩⟩
        "attr_name" a =
      Except.ok ⟨⟨FField.val g, FField.val a, FField.unset⟩⟩ ∧
    AttrView.setAttr ⟨⟨FField.val g, FField.val a, FField.unset⟩⟩
        "index" i =
      Except.ok ⟨⟨FField.val g, FField.val a, FField.val i⟩⟩ ∧
    AttrView.call gt ⟨⟨FField.val g, FField.val a, FField.val i⟩⟩ =
      gt ⟨FField.val g, FField.val a, FField.val i⟩ :=
  ⟨rfl, rfl, rfl, rfl, rfl, rfl, rfl⟩

/-- C10: in the result processing of __get_tensor_by_query, the
collection loop maps each row to itself unwrapped, a row with exactly
one column is unwrapped to its single value, a failing tensor conversion
is suppressed and the plain list of collected values is returned, and
the only errors the whole operation can propagate are those of the
predicate builder — never a conversion failure. -/
theorem query_result_unwrap_and_suppress {V T : Type}
    (conv : List (V ⊕ List V) → Option T) (execute : String → List (List V))
    (group_name attr_name : String) (index : PyVal)
    (rows : List (List V)) (v : V) :
    collectRows rows [] = rows.map unwrapRow ∧
    unwrapRow [v] = Sum.inl v ∧
    (conv (rows.map unwrapRow) = Option.none →
      torchTensorResult conv rows = Sum.inr (rows.map unwrapRow)) ∧
    (∀ err : PyErr,
      (getTensorByQueryRun conv execute group_name attr_name index).1 =
          Except.error err →
      whereClauseOfIndex index = Except.error err) := by
  have hmap : collectRows rows ([] : List (V ⊕ List V)) = rows.map unwrapRow := by
    rw [collectRows_shift]; simp
  refine ⟨hmap, rfl, ?_, ?_⟩
  · intro hconv
    show (match conv (collectRows rows []) with
          | Option.some t => Sum.inl t
          | Option.none => Sum.inr (collectRows rows [])) = _
    rw [hmap, hconv]
  · intro err herr
    revert herr
    show (getTensorByQueryRun conv execute group_name attr_name index).1 =
        Except.error err → _
    unfold getTensorByQueryRun getTensorByQueryString
    cases hw : whereClauseOfIndex index with
    | error e => intro h2; simp at h2; rw [h2]
    | ok w => intro h2; simp at h2

/-- C10 witness: rows [[1], [2, 3]] and an always-failing conversion. -/
theorem query_result_unwrap_and_suppress_witness :
    (fun _ => (Option.none : Option Nat))
        (([[1], [2, 3]] : List (List Nat)).map unwrapRow) = Option.none ∧
    torchTensorResult (fun _ => (Option.none : Option Nat))
        ([[1], [2, 3]] : List (List Nat)) =
      Sum.inr ([Sum.inl 1, Sum.inr [2, 3]]) :=
  ⟨rfl,
    ((query_result_unwrap_and_suppress (fun _ => (Option.none : Option Nat))
        (fun _ => [[1], [2, 3]]) "Person" "x" PyVal.none
        [[1], [2, 3]] 0).2.2.1 rfl).trans (by decide)⟩

end RGPyg
